import Mathlib

/-!
Verification of the path-sandboxing and traversal layer of the
secure-filesystem MCP server (`server.py` and its Spanish-message twin
`server_es.py`).

The Python sources are shallowly embedded below.  String/path helpers
(`os.path.join`, `os.path.normpath`, `os.path.abspath`, `os.path.dirname`,
`os.path.relpath`, `str.startswith`, `str.lower`, substring `in`) are
re-implemented with the exact POSIX semantics CPython gives them, using
structural recursion over `List Char` so that every definition evaluates
inside the kernel.  The process environment (home directory, working
directory, and the `os.path.realpath` filesystem call, whose failure is
`OSError`) is an explicit `Env` record; the directory structure that
`os.walk` / `os.listdir` would discover is an explicit `FSEntry` tree.
-/

namespace LPSMCP

/-! ## Python string/path primitives -/

/-- `s.startswith(pre)` on Python strings. -/
def pyStartswith (s pre : String) : Bool :=
  List.isPrefixOf pre.toList s.toList

/-- Auxiliary for `p.split('/')`: accumulates the current component reversed. -/
def splitSlashAux (cur : List Char) : List Char → List String
  | [] => [String.mk cur.reverse]
  | c :: rest =>
    if c = '/' then String.mk cur.reverse :: splitSlashAux [] rest
    else splitSlashAux (c :: cur) rest

/-- Python `p.split('/')`. -/
def splitSlash (s : String) : List String :=
  splitSlashAux [] s.toList

/-- `sep.join(l)` on Python strings. -/
def joinWith (sep : String) : List String → String
  | [] => ""
  | [a] => a
  | a :: b :: rest => a ++ sep ++ joinWith sep (b :: rest)

/-- Python `str.lower()` (ASCII case, which is all the sources need). -/
def lowerStr (s : String) : String :=
  String.mk (s.toList.map Char.toLower)

/-- Substring test over characters: Python `needle in hay`. -/
def listSub (needle : List Char) : List Char → Bool
  | [] => List.isPrefixOf needle []
  | c :: rest => List.isPrefixOf needle (c :: rest) || listSub needle rest

/-- Python `needle in hay` on strings. -/
def strIn (needle hay : String) : Bool :=
  listSub needle.toList hay.toList

/-- Index just past the last `'/'` of the character list (`p.rfind('/') + 1`),
`0` when there is no slash. -/
def lastSlashP1 : List Char → Nat
  | [] => 0
  | c :: rest =>
    let r := lastSlashP1 rest
    if r > 0 then r + 1 else if c = '/' then 1 else 0

/-- `head.rstrip('/')` over characters. -/
def rstripSlash (l : List Char) : List Char :=
  (l.reverse.dropWhile (fun c => c = '/')).reverse

/-- `os.path.dirname` (POSIX): the prefix up to the last slash, with trailing
slashes stripped unless the head is all slashes. -/
def pyDirname (p : String) : String :=
  let l := p.toList
  let i := lastSlashP1 l
  let head := l.take i
  if head ≠ [] ∧ ¬ head.all (fun c => c = '/') then String.mk (rstripSlash head)
  else String.mk head

/-- Two-argument `os.path.join` (POSIX): an absolute second component
discards the first. -/
def pyJoin (a b : String) : String :=
  if pyStartswith b "/" then b
  else if a = "" ∨ a.toList.getLast? = some '/' then a ++ b
  else a ++ "/" ++ b

/-- Leading-slash count as `posixpath.normpath` classifies it: `0`, `1`, or
the special double-slash `2`. -/
def initialSlashes (p : String) : Nat :=
  if pyStartswith p "/" then
    (if pyStartswith p "//" ∧ ¬ pyStartswith p "///" then 2 else 1)
  else 0

/-- The slashes put back in front by `posixpath.normpath`. -/
def slashesStr : Nat → String
  | 0 => ""
  | 1 => "/"
  | _ => "//"

/-- `os.path.normpath` (POSIX): drop empty and `.` components, resolve `..`
against previous components, keep the leading-slash classification. -/
def normpathPosix (p : String) : String :=
  if p = "" then "."
  else
    let slashes := initialSlashes p
    let comps := splitSlash p
    let newComps := comps.foldl (fun acc comp =>
      if comp = "" ∨ comp = "." then acc
      else if comp ≠ ".." ∨ (slashes = 0 ∧ acc = []) ∨ acc.getLast? = some ".." then
        acc ++ [comp]
      else if acc ≠ [] then acc.dropLast
      else acc) []
    let res := slashesStr slashes ++ joinWith "/" newComps
    if res = "" then "." else res

/-- `os.path.abspath`: join onto the working directory and normalize. -/
def pyAbspath (cwd p : String) : String :=
  normpathPosix (pyJoin cwd p)

/-- Length of the longest common prefix of two component lists
(`os.path.commonprefix` applied to lists). -/
def commonLen : List String → List String → Nat
  | a :: as, b :: bs => if a = b then commonLen as bs + 1 else 0
  | _, _ => 0

/-- `os.path.relpath(path, start)` (POSIX). -/
def relpathPosix (cwd path start : String) : String :=
  let startList := (splitSlash (pyAbspath cwd start)).filter (fun x => x != "")
  let pathList := (splitSlash (pyAbspath cwd path)).filter (fun x => x != "")
  let i := commonLen startList pathList
  let relList := List.replicate (startList.length - i) ".." ++ pathList.drop i
  if relList = [] then "." else joinWith "/" relList

/-! ## The process environment -/

/-- The ambient process state `server.py` reads: the home directory
(`os.path.expanduser('~')`), the working directory (used by
`os.path.abspath`), and the `os.path.realpath` filesystem call.
`realpath` returning `.error ()` models it raising `OSError`. -/
structure Env where
  home : String
  cwd : String
  realpath : String → Except Unit String

/-! ## `validate_path` (`server.py` lines 21–78) -/

/-- `normalize_path` from `server.py`: `os.path.normpath`. -/
def normalize_path (p : String) : String :=
  normpathPosix p

/-- `expand_home` from `server.py`.  Note `os.path.join(home, filepath[1:])`:
for `~/x` the second argument `/x` is absolute, so POSIX `join` discards
`home`. -/
def expand_home (env : Env) (filepath : String) : String :=
  if pyStartswith filepath "~/" ∨ filepath = "~" then
    pyJoin env.home (String.mk filepath.toList.tail)
  else filepath

/-- The containment test `any(s.startswith(dir) for dir in allowed_directories)`
used three times inside `validate_path`. -/
def prefixAllowed (allowed : List String) (s : String) : Bool :=
  allowed.any (fun d => pyStartswith s d)

/-- `', '.join(allowed_directories)`. -/
def joinComma (l : List String) : String :=
  joinWith ", " l

/-- The four distinct `raise ValueError(...)` sites of `validate_path`,
each carrying the exact message string it raises. -/
inductive VErr where
  | outsideAllowed (msg : String)
  | symlinkEscapes (msg : String)
  | parentOutside (msg : String)
  | parentMissing (msg : String)
deriving DecidableEq, Repr

/-- `validate_path` from `server.py` (lines 48–78).  `Except VErr String`
models the function either returning a path or raising `ValueError`;
`env.realpath _ = .error ()` models `os.path.realpath` raising `OSError`,
which is what the two `except OSError` arms catch (the `ValueError` raised
inside the first `try` is not an `OSError` and propagates, exactly as in
the source). -/
def validate_path (env : Env) (allowed : List String) (requested_path : String) :
    Except VErr String :=
  let expanded_path := expand_home env requested_path
  let absolute := pyAbspath env.cwd expanded_path
  let normalized_requested := normalize_path absolute
  let is_allowed := prefixAllowed allowed normalized_requested
  if is_allowed = false then
    .error (.outsideAllowed
      ("Access denied - path outside allowed directories: " ++ absolute ++
       " not in " ++ joinComma allowed))
  else
    match env.realpath absolute with
    | .ok real_path =>
      let normalized_real := normalize_path real_path
      let is_real_path_allowed := prefixAllowed allowed normalized_real
      if is_real_path_allowed = false then
        .error (.symlinkEscapes "Access denied - symlink target outside allowed directories")
      else
        .ok real_path
    | .error _ =>
      let parent_dir := pyDirname absolute
      match env.realpath parent_dir with
      | .ok real_parent_path =>
        let normalized_parent := normalize_path real_parent_path
        let is_parent_allowed := prefixAllowed allowed normalized_parent
        if is_parent_allowed = false then
          .error (.parentOutside "Access denied - parent directory outside allowed directories")
        else
          .ok absolute
      | .error _ =>
        .error (.parentMissing ("Parent directory does not exist: " ++ parent_dir))

/-- `validate_path` from `server_es.py` (lines 48–78): identical control
flow, Spanish message strings. -/
def validate_path_es (env : Env) (allowed : List String) (requested_path : String) :
    Except VErr String :=
  let expanded_path := expand_home env requested_path
  let absolute := pyAbspath env.cwd expanded_path
  let normalized_requested := normalize_path absolute
  let is_allowed := prefixAllowed allowed normalized_requested
  if is_allowed = false then
    .error (.outsideAllowed
      ("Acceso denegado - ruta fuera de los directorios permitidos: " ++ absolute ++
       " no está en " ++ joinComma allowed))
  else
    match env.realpath absolute with
    | .ok real_path =>
      let normalized_real := normalize_path real_path
      let is_real_path_allowed := prefixAllowed allowed normalized_real
      if is_real_path_allowed = false then
        .error (.symlinkEscapes
          "Acceso denegado - destino del enlace simbólico fuera de los directorios permitidos")
      else
        .ok real_path
    | .error _ =>
      let parent_dir := pyDirname absolute
      match env.realpath parent_dir with
      | .ok real_parent_path =>
        let normalized_parent := normalize_path real_parent_path
        let is_parent_allowed := prefixAllowed allowed normalized_parent
        if is_parent_allowed = false then
          .error (.parentOutside
            "Acceso denegado - directorio padre fuera de los directorios permitidos")
        else
          .ok absolute
      | .error _ =>
        .error (.parentMissing ("El directorio padre no existe: " ++ parent_dir))

/-- Which of the five outcomes (`ok` or one of the four raise sites) a
`validate_path` result is, ignoring the message text. -/
def vkind : Except VErr String → Nat
  | .ok _ => 0
  | .error (.outsideAllowed _) => 1
  | .error (.symlinkEscapes _) => 2
  | .error (.parentOutside _) => 3
  | .error (.parentMissing _) => 4

/-! ## The directory structure seen by `os.walk` / `os.listdir`

`os.walk(root, topdown=True)` (the default used by `search_files`) yields
`(dirpath, dirnames, filenames)` for a directory, honours in-place edits of
`dirnames`, and then recurses into the remaining `dirnames` entries — but,
since `followlinks=False`, it does not descend into a directory entry that
is a symbolic link, although that entry still appears in `dirnames`.
`os.path.isdir` and `os.listdir`, used by `build_tree`, do follow such a
link.  `FSEntry.linkdir` therefore records a symlinked directory together
with the entries visible through the link. -/

inductive FSEntry where
  | file (name : String)
  | dir (name : String) (children : List FSEntry)
  | linkdir (name : String) (children : List FSEntry)

/-- Size of a listing, bounding the depth of any walk below it. -/
def entriesSize : List FSEntry → Nat
  | [] => 0
  | .file _ :: rest => 1 + entriesSize rest
  | .dir _ children :: rest => 1 + entriesSize children + entriesSize rest
  | .linkdir _ children :: rest => 1 + entriesSize children + entriesSize rest

/-- The entry's name as `os.listdir` reports it. -/
def entryName : FSEntry → String
  | .file n => n
  | .dir n _ => n
  | .linkdir n _ => n

/-- Whether `os.walk` places the entry in `dirnames`. -/
def inDirnames : FSEntry → Bool
  | .file _ => false
  | .dir _ _ => true
  | .linkdir _ _ => true

/-! ## `search_files` (`server.py` lines 93–132) -/

/-- The fixed arguments threaded through the `os.walk` loop of
`search_files`. -/
structure SearchCtx where
  env : Env
  allowed : List String
  root_path : String
  pattern : String
  excludes : List String

/-- The in-place `dirs[:] = [d for d in dirs if not any(...)]` filter:
an entry in `dirnames` is kept when its path relative to `root_path`
starts with no exclude pattern; filenames are untouched. -/
def keepEntry (ctx : SearchCtx) (root : String) : FSEntry → Bool
  | .file _ => true
  | .dir d _ =>
    ! ctx.excludes.any (fun ex =>
        pyStartswith (relpathPosix ctx.env.cwd (pyJoin root d) ctx.root_path) ex)
  | .linkdir d _ =>
    ! ctx.excludes.any (fun ex =>
        pyStartswith (relpathPosix ctx.env.cwd (pyJoin root d) ctx.root_path) ex)

/-- The `for name in dirs + files:` loop body: validate each full path
(skipping it on `ValueError`) and collect it when the pattern occurs
case-insensitively in the name.  `dirs + files` lists the (already
filtered) `dirnames` before the `filenames`. -/
def matchEntries (ctx : SearchCtx) (root : String) (kept : List FSEntry) : List String :=
  (kept.filter inDirnames ++ kept.filter (fun e => ! inDirnames e)).filterMap (fun e =>
    match validate_path ctx.env ctx.allowed (pyJoin root (entryName e)) with
    | .ok _ => if strIn (lowerStr ctx.pattern) (lowerStr (entryName e)) then
                 some (pyJoin root (entryName e))
               else none
    | .error _ => none)

/-- One `os.walk` iteration and its recursive descent, with a fuel bound on
the recursion depth (`search_files` instantiates it above the tree depth,
so the `0` case is never reached).  When `validate_path root` raises, the
loop body does `continue` *before* the `dirs[:]` filter ran, so `os.walk`
still descends into every real subdirectory, unfiltered; when it succeeds,
the excluded `dirnames` entries are pruned, the kept entries are matched,
and the walk descends into the kept real directories only. -/
def search_files_walk (ctx : SearchCtx) : Nat → String → List FSEntry → List String
  | 0, _, _ => []
  | fuel + 1, root, entries =>
    match validate_path ctx.env ctx.allowed root with
    | .error _ =>
      (entries.map (fun e =>
        match e with
        | .dir d children => search_files_walk ctx fuel (pyJoin root d) children
        | _ => [])).flatten
    | .ok _ =>
      let kept := entries.filter (keepEntry ctx root)
      matchEntries ctx root kept ++
      (kept.map (fun e =>
        match e with
        | .dir d children => search_files_walk ctx fuel (pyJoin root d) children
        | _ => [])).flatten

/-- `search_files` from `server.py`: walk the tree below `root_path`, whose
directory listing is `entries`. -/
def search_files (env : Env) (allowed : List String) (root_path pattern : String)
    (exclude_patterns : List String) (entries : List FSEntry) : List String :=
  search_files_walk ⟨env, allowed, root_path, pattern, exclude_patterns⟩
    (entriesSize entries + 1) root_path entries

/-- `matchEntries` for `server_es.py`, which calls its own `validate_path`. -/
def matchEntries_es (ctx : SearchCtx) (root : String) (kept : List FSEntry) : List String :=
  (kept.filter inDirnames ++ kept.filter (fun e => ! inDirnames e)).filterMap (fun e =>
    match validate_path_es ctx.env ctx.allowed (pyJoin root (entryName e)) with
    | .ok _ => if strIn (lowerStr ctx.pattern) (lowerStr (entryName e)) then
                 some (pyJoin root (entryName e))
               else none
    | .error _ => none)

/-- The `os.walk` loop of `search_files` from `server_es.py`. -/
def search_files_walk_es (ctx : SearchCtx) : Nat → String → List FSEntry → List String
  | 0, _, _ => []
  | fuel + 1, root, entries =>
    match validate_path_es ctx.env ctx.allowed root with
    | .error _ =>
      (entries.map (fun e =>
        match e with
        | .dir d children => search_files_walk_es ctx fuel (pyJoin root d) children
        | _ => [])).flatten
    | .ok _ =>
      let kept := entries.filter (keepEntry ctx root)
      matchEntries_es ctx root kept ++
      (kept.map (fun e =>
        match e with
        | .dir d children => search_files_walk_es ctx fuel (pyJoin root d) children
        | _ => [])).flatten

/-- `search_files` from `server_es.py`. -/
def search_files_es (env : Env) (allowed : List String) (root_path pattern : String)
    (exclude_patterns : List String) (entries : List FSEntry) : List String :=
  search_files_walk_es ⟨env, allowed, root_path, pattern, exclude_patterns⟩
    (entriesSize entries + 1) root_path entries

/-! ## `directory_tree` (`server.py` lines 310–348) -/

/-- A node of the JSON tree `build_tree` produces: the `name` and `type`
fields, and the `children` field, present (`some`) iff the source put the
key in the dict. -/
inductive TreeNode where
  | node (name : String) (ntype : String) (children : Option (List TreeNode))

/-- The `name` field of a tree node. -/
def nodeName : TreeNode → String
  | .node n _ _ => n

/-- The `type` field of a tree node. -/
def nodeType : TreeNode → String
  | .node _ t _ => t

/-- The `children` field of a tree node. -/
def nodeChildren : TreeNode → Option (List TreeNode)
  | .node _ _ c => c

/-- `build_tree` from `directory_tree` (`server.py` lines 322–345), on the
listing `entries` of `current_path`, with a fuel bound on the recursion
depth.  For each entry: validate its full path, skipping the entry on
`ValueError`; `os.path.isdir` follows symlinks, so both `dir` and
`linkdir` entries become `"directory"` nodes with a `children` key
(recursing through the link, as `os.listdir` would); files become
`"file"` nodes with no `children` key. -/
def build_tree (env : Env) (allowed : List String) :
    Nat → String → List FSEntry → List TreeNode
  | 0, _, _ => []
  | fuel + 1, current_path, entries =>
    entries.filterMap (fun e =>
      let entry_path := pyJoin current_path (entryName e)
      match validate_path env allowed entry_path with
      | .error _ => none
      | .ok _ =>
        match e with
        | .file n => some (.node n "file" none)
        | .dir n children =>
          some (.node n "directory" (some (build_tree env allowed fuel entry_path children)))
        | .linkdir n children =>
          some (.node n "directory" (some (build_tree env allowed fuel entry_path children))))

/-- The `directory_tree` tool (`server.py` lines 310–348): validate the
root path — a failure there propagates to the caller — then build the tree
from the validated path, whose listing is `entries`. -/
def directory_tree (env : Env) (allowed : List String) (path : String)
    (entries : List FSEntry) : Except VErr (List TreeNode) :=
  match validate_path env allowed path with
  | .error e => .error e
  | .ok valid_path => .ok (build_tree env allowed (entriesSize entries + 1) valid_path entries)

/-- The `search_files_tool` tool (`server.py` lines 351–366): validate the
root path — a failure there propagates — then run `search_files` from the
validated path and render the results, with the `"No matches found"`
sentinel for an empty list. -/
def search_files_tool (env : Env) (allowed : List String) (path pattern : String)
    (exclude_patterns : List String) (entries : List FSEntry) : Except VErr String :=
  match validate_path env allowed path with
  | .error e => .error e
  | .ok valid_path =>
    let results := search_files env allowed valid_path pattern exclude_patterns entries
    .ok (if results = [] then "No matches found" else joinWith "\n" results)

/-- The well-formedness of §4.2, recursively through the tree: a node
carrying a `children` field must be a `"directory"` node (so no `"file"`
node has one) and a node without one must be a `"file"` node (so every
`"directory"` node has one, possibly empty). -/
def treeListOk : List TreeNode → Bool
  | [] => true
  | .node _ t c :: rest =>
    (match c with
     | some children => t == "directory" && treeListOk children
     | none => t == "file") && treeListOk rest

/-! ## `SequentialThinkingServer` (`server.py` lines 135–241)

The values arriving in the `input_data` dict are dynamically typed; `PyVal`
models the Python values that can occur there.  Note the two CPython
subtleties the embedding keeps: `bool` is a subclass of `int`, so
`isinstance(True, int)` holds; and the branch-tracking condition uses
truthiness, not `is not None`. -/

inductive PyVal where
  | vStr (s : String)
  | vInt (n : Int)
  | vBool (b : Bool)
  | vNone
deriving DecidableEq, Repr

/-- `data.get(key)`: first binding of the key, `None` when absent. -/
def dGet (data : List (String × PyVal)) (key : String) : PyVal :=
  match data.find? (fun kv => kv.1 == key) with
  | some kv => kv.2
  | none => .vNone

/-- `isinstance(v, str)`. -/
def isinstStr : PyVal → Bool
  | .vStr _ => true
  | _ => false

/-- `isinstance(v, int)` — a Python `bool` is an `int`. -/
def isinstInt : PyVal → Bool
  | .vInt _ => true
  | .vBool _ => true
  | _ => false

/-- `isinstance(v, bool)`. -/
def isinstBool : PyVal → Bool
  | .vBool _ => true
  | _ => false

/-- Python truthiness of the modelled values. -/
def truthy : PyVal → Bool
  | .vStr s => s != ""
  | .vInt n => n != 0
  | .vBool b => b
  | .vNone => false

/-- The string behind a `vStr`. -/
def asStr : PyVal → String
  | .vStr s => s
  | _ => ""

/-- The integer value of a `vInt` or `vBool` (Python arithmetic treats
`True` as `1` and `False` as `0`). -/
def asInt : PyVal → Int
  | .vInt n => n
  | .vBool b => if b then 1 else 0
  | _ => 0

/-- The bool behind a `vBool`. -/
def asBool : PyVal → Bool
  | .vBool b => b
  | _ => false

/-- The record `validate_thought_data` returns: the four required fields
coerced to their checked types, the optional ones kept as raw values. -/
structure ThoughtData where
  thought : String
  thoughtNumber : Int
  totalThoughts : Int
  nextThoughtNeeded : Bool
  isRevision : PyVal
  revisesThought : PyVal
  branchFromThought : PyVal
  branchId : PyVal
  needsMoreThoughts : PyVal
deriving DecidableEq, Repr

/-- `validate_thought_data` (`server.py` lines 151–171): the four
`isinstance` guards in order, then the assembled record. -/
def validate_thought_data (data : List (String × PyVal)) : Except String ThoughtData :=
  if isinstStr (dGet data "thought") = false then
    .error "Invalid thought: must be a string"
  else if isinstInt (dGet data "thoughtNumber") = false then
    .error "Invalid thoughtNumber: must be a number"
  else if isinstInt (dGet data "totalThoughts") = false then
    .error "Invalid totalThoughts: must be a number"
  else if isinstBool (dGet data "nextThoughtNeeded") = false then
    .error "Invalid nextThoughtNeeded: must be a boolean"
  else
    .ok { thought := asStr (dGet data "thought")
          thoughtNumber := asInt (dGet data "thoughtNumber")
          totalThoughts := asInt (dGet data "totalThoughts")
          nextThoughtNeeded := asBool (dGet data "nextThoughtNeeded")
          isRevision := dGet data "isRevision"
          revisesThought := dGet data "revisesThought"
          branchFromThought := dGet data "branchFromThought"
          branchId := dGet data "branchId"
          needsMoreThoughts := dGet data "needsMoreThoughts" }

/-- The mutable state of a `SequentialThinkingServer` instance. -/
structure TServer where
  thought_history : List ThoughtData
  branches : List (PyVal × List ThoughtData)
deriving DecidableEq, Repr

/-- `self.branches` update: create the key with `[]` if absent, then append
the validated thought to its list (Python dicts keep insertion order). -/
def branchAdd (bs : List (PyVal × List ThoughtData)) (bid : PyVal) (v : ThoughtData) :
    List (PyVal × List ThoughtData) :=
  if bs.any (fun kv => kv.1 == bid) then
    bs.map (fun kv => if kv.1 == bid then (kv.1, kv.2 ++ [v]) else kv)
  else
    bs ++ [(bid, [v])]

/-- The success dict `process_thought` returns. -/
structure PTOk where
  thoughtNumber : Int
  totalThoughts : Int
  nextThoughtNeeded : Bool
  branches : List PyVal
  thoughtHistoryLength : Nat
deriving DecidableEq, Repr

/-- The result of `process_thought`: either the success dict, or the
`{'error': str(e), 'status': 'failed'}` dict built by the `except` arm. -/
inductive PTResult where
  | ok (r : PTOk)
  | failed (error : String)
deriving DecidableEq, Repr

/-- `process_thought` (`server.py` lines 207–241) as a state transformer.
A validation failure is caught by the `except` arm and turned into the
failure dict before any state was touched; on success the (possibly
`totalThoughts`-adjusted) record is appended to the history, the branch
map is updated when `branchFromThought` and `branchId` are both truthy,
and the response dict is assembled from the updated state.  (The
`format_thought` call only renders to stderr and cannot fail on the
modelled values, so it is omitted.) -/
def process_thought (s : TServer) (input_data : List (String × PyVal)) :
    TServer × PTResult :=
  match validate_thought_data input_data with
  | .error e => (s, .failed e)
  | .ok validated_input =>
    let v :=
      if validated_input.thoughtNumber > validated_input.totalThoughts then
        { validated_input with totalThoughts := validated_input.thoughtNumber }
      else validated_input
    let s1 : TServer := { s with thought_history := s.thought_history ++ [v] }
    let s2 : TServer :=
      if truthy v.branchFromThought ∧ truthy v.branchId then
        { s1 with branches := branchAdd s1.branches v.branchId v }
      else s1
    (s2, .ok { thoughtNumber := v.thoughtNumber
               totalThoughts := v.totalThoughts
               nextThoughtNeeded := v.nextThoughtNeeded
               branches := s2.branches.map (fun kv => kv.1)
               thoughtHistoryLength := s2.thought_history.length })

/-! ## Claim theorems -/

/-- C1 — the code violates the claim.  With `['/allowed']` as the only
allowed root, the sibling path `/allowedother` is not contained in any
root in the claim's boundary sense (it differs from the root and does not
extend it across a `/` boundary), yet `validate_path`'s bare `startswith`
containment test accepts it and the call returns the path instead of
raising the outside-allowed-roots rejection. -/
theorem validate_path_admits_sibling :
    validate_path (Env.mk "/h" "/" (fun s => .ok s)) ["/allowed"] "/allowedother" =
      .ok "/allowedother" ∧
    "/allowedother" ≠ "/allowed" ∧
    pyStartswith "/allowedother" ("/allowed" ++ "/") = false := by
  refine ⟨by rfl, by decide, by rfl⟩

/-- C2: whenever the normalized literal path passes the containment test
but `os.path.realpath` resolves it (through a symlink) to a real path that
fails the containment test, `validate_path` raises the
symlink-escapes-roots rejection instead of returning a path. -/
theorem validate_path_symlink_escape (env : Env) (allowed : List String) (p real : String)
    (hlit : prefixAllowed allowed (normalize_path (pyAbspath env.cwd (expand_home env p))) = true)
    (hre : env.realpath (pyAbspath env.cwd (expand_home env p)) = .ok real)
    (hout : prefixAllowed allowed (normalize_path real) = false) :
    validate_path env allowed p =
      .error (.symlinkEscapes "Access denied - symlink target outside allowed directories") := by
  unfold validate_path
  simp only [hlit, hre, hout]
  rfl

/-- Witness for C2: the §8 scenario — `/sandbox/link` is a symlink to
`/etc` with `/sandbox` the only root. -/
theorem validate_path_symlink_escape_witness :
    validate_path (Env.mk "/h" "/" (fun s => if s = "/sandbox/link" then .ok "/etc" else .ok s))
        ["/sandbox"] "/sandbox/link" =
      .error (.symlinkEscapes "Access denied - symlink target outside allowed directories") :=
  validate_path_symlink_escape
    (Env.mk "/h" "/" (fun s => if s = "/sandbox/link" then .ok "/etc" else .ok s))
    ["/sandbox"] "/sandbox/link" "/etc" (by rfl) (by rfl) (by rfl)

/-- C3: when the literal path passes containment but `os.path.realpath`
fails on it (the target does not exist), `validate_path` falls back to the
parent directory: if the parent's real path resolves and passes
containment the call succeeds with the literal (un-resolved) path, and if
the parent itself cannot be resolved the call raises the parent-missing
rejection. -/
theorem validate_path_nonexistent_target (env : Env) (allowed : List String) (p : String)
    (hlit : prefixAllowed allowed (normalize_path (pyAbspath env.cwd (expand_home env p))) = true)
    (hne : env.realpath (pyAbspath env.cwd (expand_home env p)) = .error ()) :
    (∀ rp, env.realpath (pyDirname (pyAbspath env.cwd (expand_home env p))) = .ok rp →
       prefixAllowed allowed (normalize_path rp) = true →
       validate_path env allowed p = .ok (pyAbspath env.cwd (expand_home env p))) ∧
    (env.realpath (pyDirname (pyAbspath env.cwd (expand_home env p))) = .error () →
       validate_path env allowed p = .error (.parentMissing
         ("Parent directory does not exist: " ++
          pyDirname (pyAbspath env.cwd (expand_home env p))))) := by
  constructor
  · intro rp hrp hin
    unfold validate_path
    simp only [hlit, hne, hrp, hin]
    rfl
  · intro hpne
    unfold validate_path
    simp only [hlit, hne, hpne]
    rfl

/-- Witness for C3: a not-yet-created `/sandbox/new.txt` whose parent
`/sandbox` exists succeeds with the literal path; `/sandbox/sub/new.txt`
whose parent `/sandbox/sub` is also missing fails with the parent-missing
rejection. -/
theorem validate_path_nonexistent_target_witness :
    validate_path (Env.mk "/h" "/" (fun s => if s = "/sandbox/new.txt" then .error () else .ok s))
        ["/sandbox"] "/sandbox/new.txt" = .ok "/sandbox/new.txt" ∧
    validate_path
        (Env.mk "/h" "/"
          (fun s => if s = "/sandbox/sub/new.txt" ∨ s = "/sandbox/sub" then .error () else .ok s))
        ["/sandbox"] "/sandbox/sub/new.txt" =
      .error (.parentMissing "Parent directory does not exist: /sandbox/sub") :=
  ⟨(validate_path_nonexistent_target
      (Env.mk "/h" "/" (fun s => if s = "/sandbox/new.txt" then .error () else .ok s))
      ["/sandbox"] "/sandbox/new.txt" (by rfl) (by rfl)).1 "/sandbox" (by rfl) (by rfl),
   (validate_path_nonexistent_target
      (Env.mk "/h" "/"
        (fun s => if s = "/sandbox/sub/new.txt" ∨ s = "/sandbox/sub" then .error () else .ok s))
      ["/sandbox"] "/sandbox/sub/new.txt" (by rfl) (by rfl)).2 (by rfl)⟩

/-- C4 — the code violates the claim.  The claim keys success and the
outside-allowed-roots rejection on the *canonical* form alone, but
`validate_path` checks the *literal* path first: here the canonical form
of `/b/link` is `/a/x` (its `realpath`), which lies under the only allowed
root `/a` across a `/` boundary, so the claim demands success with
`/a/x` — yet the call fails with the outside-allowed-roots rejection
because the literal path `/b/link` is outside `/a`. -/
theorem validate_path_canonical_not_sufficient :
    (Env.mk "/h" "/" (fun s => .ok (if s = "/b/link" then "/a/x" else s))).realpath
        (pyAbspath "/" (expand_home (Env.mk "/h" "/"
          (fun s => .ok (if s = "/b/link" then "/a/x" else s))) "/b/link")) = .ok "/a/x" ∧
    pyStartswith "/a/x" ("/a" ++ "/") = true ∧
    validate_path (Env.mk "/h" "/" (fun s => .ok (if s = "/b/link" then "/a/x" else s)))
        ["/a"] "/b/link" =
      .error (.outsideAllowed
        "Access denied - path outside allowed directories: /b/link not in /a") := by
  refine ⟨by rfl, by rfl, by rfl⟩

/-- C4 (amended): `validate_path` keys its outcomes on the two-tier
prefix-containment test, literal path first.  If the normalized literal
path fails the test the call raises the outside-allowed-roots rejection
(whatever the canonical form is); if it passes and `realpath` resolves,
the call returns the canonical (real) path when that also passes the
test, and raises the symlink-escapes-roots rejection when it does not. -/
theorem validate_path_two_tier (env : Env) (allowed : List String) (p real : String) :
    (prefixAllowed allowed (normalize_path (pyAbspath env.cwd (expand_home env p))) = false →
       ∃ m, validate_path env allowed p = .error (.outsideAllowed m)) ∧
    (prefixAllowed allowed (normalize_path (pyAbspath env.cwd (expand_home env p))) = true →
     env.realpath (pyAbspath env.cwd (expand_home env p)) = .ok real →
       (prefixAllowed allowed (normalize_path real) = true →
          validate_path env allowed p = .ok real) ∧
       (prefixAllowed allowed (normalize_path real) = false →
          ∃ m, validate_path env allowed p = .error (.symlinkEscapes m))) := by
  constructor
  · intro hlit
    unfold validate_path
    simp only [hlit]
    exact ⟨_, rfl⟩
  · intro hlit hre
    constructor
    · intro hin
      unfold validate_path
      simp only [hlit, hre, hin]
      rfl
    · intro hout
      unfold validate_path
      simp only [hlit, hre, hout]
      exact ⟨_, rfl⟩

/-- Witness for the amended C4: with root `/a`, a literal outsider `/b`
is rejected at the first tier; `/a/ok` (no symlinks) succeeds with its
canonical form; `/a/link` pointing at `/etc` is rejected at the second
tier. -/
theorem validate_path_two_tier_witness :
    (∃ m, validate_path (Env.mk "/h" "/" (fun s => .ok s)) ["/a"] "/b" =
       .error (.outsideAllowed m)) ∧
    validate_path (Env.mk "/h" "/" (fun s => .ok s)) ["/a"] "/a/ok" = .ok "/a/ok" ∧
    (∃ m, validate_path (Env.mk "/h" "/" (fun s => if s = "/a/link" then .ok "/etc" else .ok s))
        ["/a"] "/a/link" = .error (.symlinkEscapes m)) :=
  ⟨(validate_path_two_tier (Env.mk "/h" "/" (fun s => .ok s)) ["/a"] "/b" "").1 (by rfl),
   ((validate_path_two_tier (Env.mk "/h" "/" (fun s => .ok s)) ["/a"] "/a/ok" "/a/ok").2
      (by rfl) (by rfl)).1 (by rfl),
   ((validate_path_two_tier (Env.mk "/h" "/" (fun s => if s = "/a/link" then .ok "/etc" else .ok s))
      ["/a"] "/a/link" "/etc").2 (by rfl) (by rfl)).2 (by rfl)⟩

/-! ### Helper lemmas shared by the traversal claims -/

/-- `treeListOk` is the conjunction of the per-node checks. -/
theorem treeListOk_eq_all : ∀ l : List TreeNode, treeListOk l = l.all (fun nd => treeListOk [nd])
  | [] => by simp [treeListOk]
  | .node n t c :: rest => by
    cases c <;>
      simp [treeListOk, treeListOk_eq_all rest, Bool.and_assoc, Bool.and_true]

/-- Every node `build_tree` emits comes from a listed entry whose full
path passed `validate_path`. -/
theorem build_tree_nodes_validated :
    ∀ (fuel : Nat) (env : Env) (allowed : List String) (current_path : String)
      (entries : List FSEntry) (nd : TreeNode),
      nd ∈ build_tree env allowed fuel current_path entries →
      ∃ e ∈ entries, entryName e = nodeName nd ∧
        (validate_path env allowed (pyJoin current_path (entryName e))).toOption.isSome = true := by
  intro fuel env allowed current_path entries nd hnd
  cases fuel with
  | zero => simp [build_tree] at hnd
  | succ n =>
    simp only [build_tree] at hnd
    rw [List.mem_filterMap] at hnd
    obtain ⟨e, he, hfe⟩ := hnd
    refine ⟨e, he, ?_⟩
    cases hval : validate_path env allowed (pyJoin current_path (entryName e)) with
    | error err =>
      rw [hval] at hfe
      cases e <;> simp at hfe
    | ok v =>
      rw [hval] at hfe
      cases e <;> simp at hfe <;> subst hfe <;>
        simp [entryName, nodeName, hval, Except.toOption]

/-- Every path `search_files`' walk returns passed `validate_path`. -/
theorem walk_results_validated :
    ∀ (fuel : Nat) (ctx : SearchCtx) (root : String) (entries : List FSEntry) (r : String),
      r ∈ search_files_walk ctx fuel root entries →
      (validate_path ctx.env ctx.allowed r).toOption.isSome = true := by
  intro fuel
  induction fuel with
  | zero => intro ctx root entries r hr; simp [search_files_walk] at hr
  | succ n ih =>
    intro ctx root entries r hr
    simp only [search_files_walk] at hr
    cases hval : validate_path ctx.env ctx.allowed root with
    | error err =>
      rw [hval] at hr
      simp only [List.mem_flatten, List.mem_map] at hr
      obtain ⟨sub, ⟨e, he, hsub⟩, hrsub⟩ := hr
      cases e with
      | file name => subst hsub; simp at hrsub
      | linkdir name children => subst hsub; simp at hrsub
      | dir name children => subst hsub; exact ih ctx (pyJoin root name) children r hrsub
    | ok v =>
      rw [hval] at hr
      rcases List.mem_append.mp hr with hm | hm
      · unfold matchEntries at hm
        rw [List.mem_filterMap] at hm
        obtain ⟨e, _, hfe⟩ := hm
        cases hv2 : validate_path ctx.env ctx.allowed (pyJoin root (entryName e)) with
        | error err2 => rw [hv2] at hfe; simp at hfe
        | ok w =>
          rw [hv2] at hfe
          simp only [] at hfe
          split at hfe
          · simp at hfe
            subst hfe
            rw [hv2]
            rfl
          · cases hfe
      · simp only [List.mem_flatten, List.mem_map] at hm
        obtain ⟨sub, ⟨e, he, hsub⟩, hrsub⟩ := hm
        cases e with
        | file name => subst hsub; simp at hrsub
        | linkdir name children => subst hsub; simp at hrsub
        | dir name children => subst hsub; exact ih ctx (pyJoin root name) children r hrsub

/-- The two `validate_path` versions agree on which branch they take and
on the returned value. -/
theorem validate_agree (env : Env) (allowed : List String) (p : String) :
    (validate_path env allowed p).toOption = (validate_path_es env allowed p).toOption ∧
    vkind (validate_path env allowed p) = vkind (validate_path_es env allowed p) := by
  simp only [validate_path, validate_path_es]
  cases h1 : prefixAllowed allowed (normalize_path (pyAbspath env.cwd (expand_home env p))) with
  | false => simp [vkind, Except.toOption]
  | true =>
    cases h2 : env.realpath (pyAbspath env.cwd (expand_home env p)) with
    | ok real => cases h3 : prefixAllowed allowed (normalize_path real) <;>
        simp [vkind, Except.toOption, h3]
    | error u =>
      cases h4 : env.realpath (pyDirname (pyAbspath env.cwd (expand_home env p))) with
      | ok rp => cases h5 : prefixAllowed allowed (normalize_path rp) <;>
          simp [vkind, Except.toOption, h5]
      | error u2 => simp [vkind, Except.toOption]

/-- Shape form of `validate_agree`: same value on success, failure
together. -/
theorem validate_es_shape (env : Env) (allowed : List String) (p : String) :
    (∃ v, validate_path env allowed p = .ok v ∧ validate_path_es env allowed p = .ok v) ∨
    (∃ e1 e2, validate_path env allowed p = .error e1 ∧
       validate_path_es env allowed p = .error e2) := by
  have h := (validate_agree env allowed p).1
  rcases h1 : validate_path env allowed p with e1 | v1 <;>
    rcases h2 : validate_path_es env allowed p with e2 | v2 <;>
    rw [h1, h2] at h <;> simp [Except.toOption] at h
  · exact Or.inr ⟨e1, e2, rfl, rfl⟩
  · subst h; exact Or.inl ⟨v1, rfl, rfl⟩

/-- The per-entry match loops of the two `search_files` agree. -/
theorem matchEntries_agree (ctx : SearchCtx) (root : String) (kept : List FSEntry) :
    matchEntries ctx root kept = matchEntries_es ctx root kept := by
  unfold matchEntries matchEntries_es
  congr 1
  funext e
  rcases validate_es_shape ctx.env ctx.allowed (pyJoin root (entryName e)) with
    ⟨v, hv1, hv2⟩ | ⟨e1, e2, hv1, hv2⟩ <;> simp [hv1, hv2]

/-- The walks of the two `search_files` agree at every fuel. -/
theorem walk_agree :
    ∀ (fuel : Nat) (ctx : SearchCtx) (root : String) (entries : List FSEntry),
      search_files_walk ctx fuel root entries = search_files_walk_es ctx fuel root entries := by
  intro fuel
  induction fuel with
  | zero => intro ctx root entries; rfl
  | succ n ih =>
    intro ctx root entries
    simp only [search_files_walk, search_files_walk_es]
    rcases validate_es_shape ctx.env ctx.allowed root with
      ⟨v, hv1, hv2⟩ | ⟨e1, e2, hv1, hv2⟩
    · rw [hv1, hv2]
      simp only []
      rw [matchEntries_agree]
      refine congrArg _ (congrArg List.flatten (List.map_congr_left ?_))
      intro e he
      cases e <;> simp [ih]
    · rw [hv1, hv2]
      simp only []
      refine congrArg List.flatten (List.map_congr_left ?_)
      intro e he
      cases e <;> simp [ih]

/-! ### Traversal claim theorems -/

/-- C5 — the code violates the claim.  With allowed root `/r/x/b`, search
root `/r`, pattern `foo`, and exclude pattern `x/bad`: validation fails
for the walked directories `/r` and `/r/x`, so the `continue` in the walk
loop skips the `dirs[:]` exclusion filter there while `os.walk` still
descends; `/r/x/bad` then validates and its file is returned — a result
that lies under the subdirectory `/r/x/bad` whose path relative to the
root, `x/bad`, starts with the exclude pattern `x/bad`. -/
theorem search_files_exclusion_bypass :
    search_files (Env.mk "/h" "/" (fun s => .ok s)) ["/r/x/b"] "/r" "foo" ["x/bad"]
        [.dir "x" [.dir "bad" [.file "foo.txt"]]] = ["/r/x/bad/foo.txt"] ∧
    pyStartswith (relpathPosix "/" "/r/x/bad" "/r") "x/bad" = true ∧
    pyStartswith "/r/x/bad/foo.txt" ("/r/x/bad" ++ "/") = true := by
  refine ⟨?_, by rfl, by rfl⟩
  have h : entriesSize [FSEntry.dir "x" [.dir "bad" [.file "foo.txt"]]] = 3 := by
    simp [entriesSize]
  simp only [search_files, h]
  rfl

/-- C5 (amended): pruning works as claimed at every walked directory that
passes validation — there, an entry whose path relative to the search root
starts with an exclude pattern is dropped before matching and before
descent, so removing it from the directory listing leaves the results
unchanged and none of its descendants can appear.  (When the walked
directory itself fails validation the filter is skipped while `os.walk`
still descends, which is what the recorded counterexample exploits.) -/
theorem search_files_prunes_under_validation (ctx : SearchCtx) (fuel : Nat) (root : String)
    (l1 l2 : List FSEntry) (e : FSEntry)
    (hok : (validate_path ctx.env ctx.allowed root).toOption.isSome = true)
    (hex : keepEntry ctx root e = false) :
    search_files_walk ctx (fuel + 1) root (l1 ++ e :: l2) =
      search_files_walk ctx (fuel + 1) root (l1 ++ l2) := by
  obtain ⟨v, hv⟩ : ∃ v, validate_path ctx.env ctx.allowed root = .ok v := by
    rcases h : validate_path ctx.env ctx.allowed root with e1 | v1
    · rw [h] at hok; simp [Except.toOption] at hok
    · exact ⟨v1, rfl⟩
  simp only [search_files_walk, hv]
  have hfil : (l1 ++ e :: l2).filter (keepEntry ctx root) =
      (l1 ++ l2).filter (keepEntry ctx root) := by
    simp [List.filter_append, List.filter_cons, hex]
  rw [hfil]

/-- Witness for the amended C5: with root `/s` validated, removing the
excluded `sub` directory (holding `foo.txt`) from the listing does not
change the walk's results. -/
theorem search_files_prunes_under_validation_witness :
    search_files_walk
        (SearchCtx.mk (Env.mk "/h" "/" (fun s => .ok s)) ["/s"] "/s" "foo" ["sub"]) 6 "/s"
        ([] ++ FSEntry.dir "sub" [.file "foo.txt"] :: [FSEntry.file "foo2.txt"]) =
      search_files_walk
        (SearchCtx.mk (Env.mk "/h" "/" (fun s => .ok s)) ["/s"] "/s" "foo" ["sub"]) 6 "/s"
        ([] ++ [FSEntry.file "foo2.txt"]) :=
  search_files_prunes_under_validation
    (SearchCtx.mk (Env.mk "/h" "/" (fun s => .ok s)) ["/s"] "/s" "foo" ["sub"]) 5 "/s"
    [] [FSEntry.file "foo2.txt"] (FSEntry.dir "sub" [.file "foo.txt"]) (by rfl) (by rfl)

/-- C6: for `directory_tree` and `search_files_tool`, a validation failure
on the root path propagates to the caller unchanged, while on success
`directory_tree` always returns a built tree and `search_files_tool`
always returns a rendering (descendant failures never abort either); and
descendant failures are swallowed by exclusion — every emitted tree node
comes from a listed entry whose path validated, and every search result is
a path that validated. -/
theorem root_failure_hard_descendant_failure_swallowed :
    (∀ env allowed path pattern exclude_patterns entries err,
       validate_path env allowed path = .error err →
       directory_tree env allowed path entries = .error err ∧
       search_files_tool env allowed path pattern exclude_patterns entries = .error err) ∧
    (∀ env allowed path pattern exclude_patterns entries v,
       validate_path env allowed path = .ok v →
       directory_tree env allowed path entries =
         .ok (build_tree env allowed (entriesSize entries + 1) v entries) ∧
       ∃ out, search_files_tool env allowed path pattern exclude_patterns entries = .ok out) ∧
    (∀ env allowed fuel current_path entries nd,
       nd ∈ build_tree env allowed fuel current_path entries →
       ∃ e ∈ entries, entryName e = nodeName nd ∧
         (validate_path env allowed (pyJoin current_path (entryName e))).toOption.isSome = true) ∧
    (∀ ctx fuel root entries r, r ∈ search_files_walk ctx fuel root entries →
       (validate_path ctx.env ctx.allowed r).toOption.isSome = true) := by
  refine ⟨?_, ?_, ?_, ?_⟩
  · intro env allowed path pattern exclude_patterns entries err hval
    constructor <;> simp [directory_tree, search_files_tool, hval]
  · intro env allowed path pattern exclude_patterns entries v hval
    constructor
    · simp [directory_tree, hval]
    · simp only [search_files_tool, hval]
      exact ⟨_, rfl⟩
  · intro env allowed fuel current_path entries nd hnd
    exact build_tree_nodes_validated fuel env allowed current_path entries nd hnd
  · intro ctx fuel root entries r hr
    exact walk_results_validated fuel ctx root entries r hr

/-- Witness for C6: with root `/s` and an identity filesystem — the
invalid root `/etc` is a hard error for both tools; the valid root `/s`
yields a tree and a rendering; the single emitted node and the single
search result both trace back to validated paths. -/
theorem root_failure_hard_witness :
    (directory_tree (Env.mk "/h" "/" (fun s => .ok s)) ["/s"] "/etc" [] =
       .error (.outsideAllowed
         "Access denied - path outside allowed directories: /etc not in /s") ∧
     search_files_tool (Env.mk "/h" "/" (fun s => .ok s)) ["/s"] "/etc" "a" [] [] =
       .error (.outsideAllowed
         "Access denied - path outside allowed directories: /etc not in /s")) ∧
    (∃ out, search_files_tool (Env.mk "/h" "/" (fun s => .ok s)) ["/s"] "/s" "a" []
       [FSEntry.file "a.txt"] = .ok out) ∧
    (∃ e ∈ [FSEntry.file "a.txt"], entryName e = nodeName (TreeNode.node "a.txt" "file" none) ∧
       (validate_path (Env.mk "/h" "/" (fun s => .ok s)) ["/s"]
         (pyJoin "/s" (entryName e))).toOption.isSome = true) ∧
    (validate_path (Env.mk "/h" "/" (fun s => .ok s)) ["/s"] "/s/foo.txt").toOption.isSome =
      true := by
  refine ⟨?_, ?_, ?_, ?_⟩
  · exact root_failure_hard_descendant_failure_swallowed.1 (Env.mk "/h" "/" (fun s => .ok s))
      ["/s"] "/etc" "a" [] []
      (.outsideAllowed "Access denied - path outside allowed directories: /etc not in /s")
      (by rfl)
  · exact (root_failure_hard_descendant_failure_swallowed.2.1 (Env.mk "/h" "/" (fun s => .ok s))
      ["/s"] "/s" "a" [] [FSEntry.file "a.txt"] "/s" (by rfl)).2
  · exact root_failure_hard_descendant_failure_swallowed.2.2.1 (Env.mk "/h" "/" (fun s => .ok s))
      ["/s"] 1 "/s" [FSEntry.file "a.txt"] (TreeNode.node "a.txt" "file" none)
      (List.mem_singleton.mpr rfl)
  · exact root_failure_hard_descendant_failure_swallowed.2.2.2
      (SearchCtx.mk (Env.mk "/h" "/" (fun s => .ok s)) ["/s"] "/s" "foo" []) 2 "/s"
      [FSEntry.file "foo.txt"] "/s/foo.txt" (List.mem_singleton.mpr rfl)

/-- C7: at every fuel and every listing, each `"directory"` node of the
tree `build_tree` produces has a `children` field (possibly an empty
sequence) and no `"file"` node has one, recursively through the whole
tree. -/
theorem build_tree_children_shape :
    ∀ (fuel : Nat) (env : Env) (allowed : List String) (current_path : String)
      (entries : List FSEntry),
      treeListOk (build_tree env allowed fuel current_path entries) = true := by
  intro fuel
  induction fuel with
  | zero => intro env allowed current_path entries; simp [build_tree, treeListOk]
  | succ n ih =>
    intro env allowed current_path entries
    rw [treeListOk_eq_all, List.all_eq_true]
    intro nd hnd
    simp only [build_tree] at hnd
    rw [List.mem_filterMap] at hnd
    obtain ⟨e, he, hfe⟩ := hnd
    cases hval : validate_path env allowed (pyJoin current_path (entryName e)) with
    | error err => rw [hval] at hfe; cases e <;> simp at hfe
    | ok v =>
      rw [hval] at hfe
      cases e with
      | file name =>
        simp at hfe
        subst hfe
        simp [treeListOk]
      | dir name children =>
        simp at hfe
        subst hfe
        simp [treeListOk, ih]
      | linkdir name children =>
        simp at hfe
        subst hfe
        simp [treeListOk, ih]

/-- C8: `validate_path` in `server.py` and in `server_es.py` return the
same success value and take the same branch — success or the same raise
site — on every input, differing only in the message strings their errors
carry; and the two `search_files` functions return identical results on
every input. -/
theorem server_es_equivalent :
    (∀ env allowed p,
       (validate_path env allowed p).toOption = (validate_path_es env allowed p).toOption ∧
       vkind (validate_path env allowed p) = vkind (validate_path_es env allowed p)) ∧
    (∀ env allowed root_path pattern exclude_patterns entries,
       search_files env allowed root_path pattern exclude_patterns entries =
         search_files_es env allowed root_path pattern exclude_patterns entries) :=
  ⟨validate_agree, fun env allowed root_path pattern exclude_patterns entries =>
    walk_agree (entriesSize entries + 1)
      (SearchCtx.mk env allowed root_path pattern exclude_patterns) root_path entries⟩

/-- C9: any input rejected by one of `validate_thought_data`'s four
`isinstance` guards makes `process_thought` return the
`{'error': ..., 'status': 'failed'}` dict (the `failed` result) and leaves
the server state — `thought_history` and `branches` — exactly unchanged. -/
theorem process_thought_invalid_input (s : TServer) (input_data : List (String × PyVal))
    (h : isinstStr (dGet input_data "thought") = false ∨
         isinstInt (dGet input_data "thoughtNumber") = false ∨
         isinstInt (dGet input_data "totalThoughts") = false ∨
         isinstBool (dGet input_data "nextThoughtNeeded") = false) :
    (process_thought s input_data).1 = s ∧
    ∃ e, (process_thought s input_data).2 = .failed e := by
  cases h1 : isinstStr (dGet input_data "thought") <;>
  cases h2 : isinstInt (dGet input_data "thoughtNumber") <;>
  cases h3 : isinstInt (dGet input_data "totalThoughts") <;>
  cases h4 : isinstBool (dGet input_data "nextThoughtNeeded") <;>
    simp [process_thought, validate_thought_data, h1, h2, h3, h4] at h ⊢

/-- Witness for C9: a missing `thought` key fails validation and leaves a
nonempty state untouched. -/
theorem process_thought_invalid_input_witness :
    (process_thought (TServer.mk [] [(PyVal.vStr "b", [])])
        [("thoughtNumber", PyVal.vInt 1)]).1 = TServer.mk [] [(PyVal.vStr "b", [])] ∧
    ∃ e, (process_thought (TServer.mk [] [(PyVal.vStr "b", [])])
        [("thoughtNumber", PyVal.vInt 1)]).2 = .failed e :=
  process_thought_invalid_input (TServer.mk [] [(PyVal.vStr "b", [])])
    [("thoughtNumber", PyVal.vInt 1)] (by decide)

/-- C10: on any input passing the four guards, the response's
`totalThoughts` is the maximum of the input's `thoughtNumber` and
`totalThoughts` values, and its `thoughtHistoryLength` is the previous
history length plus one. -/
theorem process_thought_valid_input (s : TServer) (input_data : List (String × PyVal))
    (h1 : isinstStr (dGet input_data "thought") = true)
    (h2 : isinstInt (dGet input_data "thoughtNumber") = true)
    (h3 : isinstInt (dGet input_data "totalThoughts") = true)
    (h4 : isinstBool (dGet input_data "nextThoughtNeeded") = true) :
    ∃ r, (process_thought s input_data).2 = .ok r ∧
      r.totalThoughts = max (asInt (dGet input_data "thoughtNumber"))
                            (asInt (dGet input_data "totalThoughts")) ∧
      r.thoughtHistoryLength = s.thought_history.length + 1 := by
  have hv : ∃ td, validate_thought_data input_data = .ok td ∧
      td.thoughtNumber = asInt (dGet input_data "thoughtNumber") ∧
      td.totalThoughts = asInt (dGet input_data "totalThoughts") := by
    simp [validate_thought_data, h1, h2, h3, h4]
  obtain ⟨td, htd, htn, htt⟩ := hv
  simp only [process_thought, htd]
  refine ⟨_, rfl, ?_, ?_⟩
  · rw [← htn, ← htt]
    split <;> rename_i hgt <;> simp at hgt ⊢ <;> omega
  · split <;> split <;> simp

/-- Witness for C10: `thoughtNumber = 5` against `totalThoughts = 3` on an
empty server yields `totalThoughts = 5` and history length `1`. -/
theorem process_thought_valid_input_witness :
    ∃ r, (process_thought (TServer.mk [] [])
        [("thought", PyVal.vStr "t"), ("thoughtNumber", PyVal.vInt 5),
         ("totalThoughts", PyVal.vInt 3), ("nextThoughtNeeded", PyVal.vBool false)]).2 = .ok r ∧
      r.totalThoughts = max (asInt (dGet [("thought", PyVal.vStr "t"),
          ("thoughtNumber", PyVal.vInt 5), ("totalThoughts", PyVal.vInt 3),
          ("nextThoughtNeeded", PyVal.vBool false)] "thoughtNumber"))
        (asInt (dGet [("thought", PyVal.vStr "t"), ("thoughtNumber", PyVal.vInt 5),
          ("totalThoughts", PyVal.vInt 3), ("nextThoughtNeeded", PyVal.vBool false)]
          "totalThoughts")) ∧
      r.thoughtHistoryLength = (TServer.mk [] []).thought_history.length + 1 :=
  process_thought_valid_input (TServer.mk [] [])
    [("thought", PyVal.vStr "t"), ("thoughtNumber", PyVal.vInt 5),
     ("totalThoughts", PyVal.vInt 3), ("nextThoughtNeeded", PyVal.vBool false)]
    (by decide) (by decide) (by decide) (by decide)

end LPSMCP
